import Mathlib

/-!
Shallow embedding of the geometric core of `src/Resizer2.0.py` (an image
resizer built on Pillow), together with theorems checking the program's
natural-language specification against the code.

Modelling conventions:
* Python floats are modelled by exact rationals (`ℚ`); every numeric
  fact proved or refuted here is checked at inputs where float and exact
  arithmetic agree.
* Python `int(x)` truncates toward zero: `pyInt`.
* Python `//` is floor division: `Int.fdiv`.
* A decoded Pillow image is a value `Img`: width, height, mode string
  (for example "RGB", "RGBA", "P"), an abstract pixel-data tree `PixData`
  recording which backend operations produced the buffer, and the outcome
  of reading its EXIF metadata.
* `Img.resize` models Pillow's `Image.resize`, including its documented
  short-circuit: resizing an image to its own size returns a plain copy
  (value-equal to the input), not a resampled buffer.
-/

/-- Outcome of `img._getexif()` as used by `apply_exif_orientation`:
the call can raise, return a falsy value (`None` or an empty dict), or
return a dict whose `.get(274)` yields the orientation tag (or `None`). -/
inductive ExifResult where
  | raiseErr : ExifResult
  | noExif : ExifResult
  | exif : Option Int → ExifResult
deriving DecidableEq

/-- Abstract pixel buffer: a tree recording which imaging-backend
operations produced it.  Two buffers are equal exactly when they were
produced by the same operations from the same decoded source. -/
inductive PixData where
  | raw : Nat → PixData
  | resampled : PixData → Nat → Nat → PixData
  | rotated : PixData → Nat → PixData
  | fitted : PixData → Nat → Nat → PixData
  | canvas : Nat → Nat → List Nat → PixData
  | pasted : PixData → PixData → Int → Int → PixData
  | converted : PixData → String → PixData
deriving DecidableEq

/-- A decoded raster image value (the `RasterImage` of the data model). -/
structure Img where
  width : Nat
  height : Nat
  mode : String
  data : PixData
  exifRes : ExifResult
deriving DecidableEq

/-- Python `int(x)`: truncation toward zero. -/
def pyInt (q : ℚ) : ℤ :=
  if q < 0 then -⌊-q⌋ else ⌊q⌋

/-- Rounding to nearest (used only to state the spec's `round(...)`
claims; the inputs at which it is applied are never exact halves, so
every round-to-nearest convention agrees with it there). -/
def roundNearest (q : ℚ) : ℤ :=
  ⌊q + 1 / 2⌋

/-- `Image.resize((w, h), LANCZOS)`: Pillow returns a plain copy when the
requested size equals the current size, otherwise a resampled buffer of
the requested size. -/
def Img.resize (img : Img) (w h : Nat) : Img :=
  if w = img.width ∧ h = img.height then img
  else { width := w, height := h, mode := img.mode,
         data := PixData.resampled img.data w h, exifRes := ExifResult.noExif }

/-- `img.rotate(deg, expand=True)` for `deg ∈ {90, 180, 270}`: rotation by
90 or 270 degrees swaps width and height, rotation by 180 keeps them. -/
def Img.rotate (img : Img) (deg : Nat) : Img :=
  if deg = 90 ∨ deg = 270 then
    { width := img.height, height := img.width, mode := img.mode,
      data := PixData.rotated img.data deg, exifRes := ExifResult.noExif }
  else
    { width := img.width, height := img.height, mode := img.mode,
      data := PixData.rotated img.data deg, exifRes := ExifResult.noExif }

/-- `img.convert(mode)`. -/
def Img.convert (img : Img) (m : String) : Img :=
  { width := img.width, height := img.height, mode := m,
    data := PixData.converted img.data m, exifRes := ExifResult.noExif }

/-- `Image.new(mode, (w, h), color)`. -/
def Image_new (m : String) (w h : Nat) (color : List Nat) : Img :=
  { width := w, height := h, mode := m,
    data := PixData.canvas w h color, exifRes := ExifResult.noExif }

/-- `background.paste(src, offset)` followed by returning `background`:
the result keeps the background's dimensions and mode. -/
def Img.paste (bg : Img) (src : Img) (ox oy : Int) : Img :=
  { width := bg.width, height := bg.height, mode := bg.mode,
    data := PixData.pasted bg.data src.data ox oy, exifRes := bg.exifRes }

/-- `ImageOps.fit(img, (w, h), method=LANCZOS)`: cover-and-crop to exactly
the requested size, keeping the mode. -/
def ImageOps_fit (img : Img) (w h : Nat) : Img :=
  { width := w, height := h, mode := img.mode,
    data := PixData.fitted img.data w h, exifRes := ExifResult.noExif }

/-- `apply_exif_orientation` (lines 351-365): reads the orientation tag
and rotates; every failure or unrecognized tag leaves the image as is. -/
def apply_exif_orientation (img : Img) : Img :=
  match img.exifRes with
  | ExifResult.raiseErr => img
  | ExifResult.noExif => img
  | ExifResult.exif orientationTag =>
    if orientationTag = some 3 then img.rotate 180
    else if orientationTag = some 6 then img.rotate 270
    else if orientationTag = some 8 then img.rotate 90
    else img

/-- Line 424: `scale = min(target_w/orig_w, target_h/orig_h)`. -/
def fitScale (orig_w orig_h target_w target_h : Nat) : ℚ :=
  min ((target_w : ℚ) / (orig_w : ℚ)) ((target_h : ℚ) / (orig_h : ℚ))

/-- Lines 426-430: the inner dimensions of Fit mode.  `scale >= 1` keeps
the original size; otherwise `new_w = int(orig_w * scale)` and
`new_h = int(orig_h * scale)` (Python `int`, truncation). -/
def fitNewDims (orig_w orig_h target_w target_h : Nat) : Nat × Nat :=
  let scale := fitScale orig_w orig_h target_w target_h
  if 1 ≤ scale then (orig_w, orig_h)
  else ((pyInt ((orig_w : ℚ) * scale)).toNat, (pyInt ((orig_h : ℚ) * scale)).toNat)

/-- Line 432: `resized = img.resize((new_w, new_h), LANCZOS)`. -/
def fitResized (img : Img) (target_w target_h : Nat) : Img :=
  let nd := fitNewDims img.width img.height target_w target_h
  img.resize nd.1 nd.2

/-- Lines 434-437: the Fit-mode canvas is transparent RGBA when the source
mode is RGBA or P, else opaque white RGB, sized exactly to the target. -/
def fitBackground (img : Img) (target_w target_h : Nat) : Img :=
  if img.mode = "RGBA" ∨ img.mode = "P" then
    Image_new "RGBA" target_w target_h [255, 255, 255, 0]
  else
    Image_new "RGB" target_w target_h [255, 255, 255]

/-- Line 439: `offset = ((target_w - new_w) // 2, (target_h - new_h) // 2)`
(Python `//`, floor division). -/
def fitOffset (target_w target_h new_w new_h : Nat) : Int × Int :=
  (Int.fdiv ((target_w : Int) - (new_w : Int)) 2,
   Int.fdiv ((target_h : Int) - (new_h : Int)) 2)

/-- `process_image` (lines 409-441): `None` without a loaded image; then
stretch / cut / fit on the mode string, `None` (fall-through) otherwise. -/
def process_image (original_image : Option Img) (mode : String)
    (target_w target_h : Nat) : Option Img :=
  match original_image with
  | none => none
  | some orig =>
    let img := orig
    if mode = "stretch" then
      some (img.resize target_w target_h)
    else if mode = "cut" then
      some (ImageOps_fit img target_w target_h)
    else if mode = "fit" then
      let nd := fitNewDims img.width img.height target_w target_h
      let off := fitOffset target_w target_h nd.1 nd.2
      some ((fitBackground img target_w target_h).paste
              (fitResized img target_w target_h) off.1 off.2)
    else
      none

/-- Line 390: `self.aspect_ratio = self.orig_width / self.orig_height if
self.orig_height else 1.0`. -/
def aspect_ratio_of (orig_w orig_h : Nat) : ℚ :=
  if orig_h ≠ 0 then (orig_w : ℚ) / (orig_h : ℚ) else 1

/-- `on_dim_change` (lines 287-303), restricted to the entry values: when
the aspect lock is on, the other entry is recomputed with Python `int`;
a `ValueError` (unparsable entry, modelled by `none`) or
`ZeroDivisionError` is swallowed, leaving the entries as they were. -/
def on_dim_change (source : String) (entry_w entry_h : Option Int)
    (aspect_locked : Bool) (ar : ℚ) : Option Int × Option Int :=
  if aspect_locked then
    if source = "width" then
      match entry_w with
      | none => (entry_w, entry_h)
      | some w =>
        if ar = 0 then (entry_w, entry_h)
        else (entry_w, some (pyInt ((w : ℚ) / ar)))
    else
      match entry_h with
      | none => (entry_w, entry_h)
      | some h => (some (pyInt ((h : ℚ) * ar)), entry_h)
  else (entry_w, entry_h)

/-- `add_recent_file` (lines 553-570), the list transformation: remove the
first occurrence of the path if present, insert at the front, keep the
first `MAX_RECENT = 5` entries. -/
def add_recent_file (filepath : String) (recent : List String) : List String :=
  let recent1 := if filepath ∈ recent then recent.erase filepath else recent
  let recent2 := filepath :: recent1
  recent2.take 5

/-- `get_dimensions` (lines 341-349): both entries must parse as ints and
be at least 1, else the pair is absent (`(None, None)`). -/
def get_dimensions (entry_w entry_h : Option Int) : Option (Int × Int) :=
  match entry_w, entry_h with
  | some w, some h => if w < 1 ∨ h < 1 then none else some (w, h)
  | _, _ => none

/-- Line 466: `scale = min(canvas_w/img_w, canvas_h/img_h, 1.0)`. -/
def previewScale (canvas_w canvas_h img_w img_h : Nat) : ℚ :=
  min (min ((canvas_w : ℚ) / (img_w : ℚ)) ((canvas_h : ℚ) / (img_h : ℚ))) 1

/-- `update_preview` (lines 443-491), the data path: early return (`none`)
without a loaded image, without valid dimensions, when `process_image`
yields `None`, or when the canvas is not yet laid out; otherwise the
displayed image and its centered placement `(x, y)` on the canvas. -/
def update_preview (original_image : Option Img) (mode : String)
    (entry_w entry_h : Option Int) (canvas_w canvas_h : Nat) :
    Option (Img × Int × Int) :=
  match original_image with
  | none => none
  | some _ =>
    match get_dimensions entry_w entry_h with
    | none => none
    | some wh =>
      match process_image original_image mode wh.1.toNat wh.2.toNat with
      | none => none
      | some processed =>
        if canvas_w < 50 ∨ canvas_h < 50 then none
        else
          let scale := previewScale canvas_w canvas_h processed.width processed.height
          let preview_w := (pyInt ((processed.width : ℚ) * scale)).toNat
          let preview_h := (pyInt ((processed.height : ℚ) * scale)).toNat
          let display0 := if scale < 1 then processed.resize preview_w preview_h
                          else processed
          let display := if display0.mode = "RGBA" then display0.convert "RGB"
                         else display0
          let x := Int.fdiv ((canvas_w : Int) - (preview_w : Int)) 2
          let y := Int.fdiv ((canvas_h : Int) - (preview_h : Int)) 2
          some (display, x, y)

/-! ## General lemmas about the embedded operations -/

lemma pyInt_eq_floor {q : ℚ} (h : 0 ≤ q) : pyInt q = ⌊q⌋ := by
  rw [pyInt, if_neg (not_lt.mpr h)]

lemma pyInt_eval {q : ℚ} {n : ℕ} (h1 : (n : ℚ) ≤ q) (h2 : q < (n : ℚ) + 1) :
    pyInt q = (n : ℤ) := by
  rw [pyInt_eq_floor (le_trans (by positivity) h1)]
  rw [Int.floor_eq_iff]
  constructor
  · exact_mod_cast h1
  · exact_mod_cast h2

lemma pyInt_toNat_le {q : ℚ} {b : ℕ} (h0 : 0 ≤ q) (hb : q ≤ (b : ℚ)) :
    (pyInt q).toNat ≤ b := by
  rw [pyInt_eq_floor h0]
  have h1 : ⌊q⌋ ≤ ((b : ℕ) : ℤ) := by
    have h2 := Int.floor_le_floor hb
    rwa [Int.floor_natCast] at h2
  omega

lemma resize_width (img : Img) (w h : Nat) : (img.resize w h).width = w := by
  rw [Img.resize]
  split
  next hc => exact hc.1.symm
  next => rfl

lemma resize_height (img : Img) (w h : Nat) : (img.resize w h).height = h := by
  rw [Img.resize]
  split
  next hc => exact hc.2.symm
  next => rfl

lemma resize_self (img : Img) : img.resize img.width img.height = img := by
  rw [Img.resize, if_pos ⟨rfl, rfl⟩]

lemma fitScale_nonneg (ow oh tw th : Nat) : 0 ≤ fitScale ow oh tw th :=
  le_min (by positivity) (by positivity)

lemma fitScale_le_w (ow oh tw th : Nat) :
    fitScale ow oh tw th ≤ (tw : ℚ) / (ow : ℚ) := min_le_left _ _

lemma fitScale_le_h (ow oh tw th : Nat) :
    fitScale ow oh tw th ≤ (th : ℚ) / (oh : ℚ) := min_le_right _ _

lemma mul_le_of_le_div {b t : Nat} {s : ℚ} (hb : 1 ≤ b)
    (h : s ≤ (t : ℚ) / (b : ℚ)) : (b : ℚ) * s ≤ (t : ℚ) := by
  have h0 : (0 : ℚ) < (b : ℚ) := by exact_mod_cast Nat.lt_of_lt_of_le Nat.zero_lt_one hb
  have h1 := mul_le_mul_of_nonneg_left h (le_of_lt h0)
  rwa [mul_comm ((b : ℚ)) ((t : ℚ) / (b : ℚ)), div_mul_cancel₀ _ (ne_of_gt h0)] at h1

lemma fitNewDims_le_target (ow oh tw th : Nat) (how : 1 ≤ ow) (hoh : 1 ≤ oh) :
    (fitNewDims ow oh tw th).1 ≤ tw ∧ (fitNewDims ow oh tw th).2 ≤ th := by
  simp only [fitNewDims]
  split
  next hs =>
    have h0w : (0 : ℚ) < (ow : ℚ) := by exact_mod_cast Nat.lt_of_lt_of_le Nat.zero_lt_one how
    have h0h : (0 : ℚ) < (oh : ℚ) := by exact_mod_cast Nat.lt_of_lt_of_le Nat.zero_lt_one hoh
    have h1 : (ow : ℚ) ≤ (tw : ℚ) :=
      (one_le_div h0w).mp (le_trans hs (fitScale_le_w ow oh tw th))
    have h2 : (oh : ℚ) ≤ (th : ℚ) :=
      (one_le_div h0h).mp (le_trans hs (fitScale_le_h ow oh tw th))
    exact ⟨by exact_mod_cast h1, by exact_mod_cast h2⟩
  next hs =>
    constructor
    · exact pyInt_toNat_le (mul_nonneg (Nat.cast_nonneg ow) (fitScale_nonneg ow oh tw th))
        (mul_le_of_le_div how (fitScale_le_w ow oh tw th))
    · exact pyInt_toNat_le (mul_nonneg (Nat.cast_nonneg oh) (fitScale_nonneg ow oh tw th))
        (mul_le_of_le_div hoh (fitScale_le_h ow oh tw th))

lemma fitNewDims_le_orig (ow oh tw th : Nat) :
    (fitNewDims ow oh tw th).1 ≤ ow ∧ (fitNewDims ow oh tw th).2 ≤ oh := by
  simp only [fitNewDims]
  split
  next => exact ⟨le_refl _, le_refl _⟩
  next hs =>
    have hs1 : fitScale ow oh tw th ≤ 1 := le_of_lt (not_le.mp hs)
    constructor
    · exact pyInt_toNat_le (mul_nonneg (Nat.cast_nonneg ow) (fitScale_nonneg ow oh tw th))
        (mul_le_of_le_one_right (Nat.cast_nonneg ow) hs1)
    · exact pyInt_toNat_le (mul_nonneg (Nat.cast_nonneg oh) (fitScale_nonneg ow oh tw th))
        (mul_le_of_le_one_right (Nat.cast_nonneg oh) hs1)

lemma fitNewDims_of_one_le {ow oh tw th : Nat} (hs : 1 ≤ fitScale ow oh tw th) :
    fitNewDims ow oh tw th = (ow, oh) := by
  simp only [fitNewDims]
  rw [if_pos hs]

lemma fitNewDims_of_lt_one {ow oh tw th : Nat} (hs : fitScale ow oh tw th < 1) :
    fitNewDims ow oh tw th
      = ((pyInt ((ow : ℚ) * fitScale ow oh tw th)).toNat,
         (pyInt ((oh : ℚ) * fitScale ow oh tw th)).toNat) := by
  simp only [fitNewDims]
  rw [if_neg (not_le.mpr hs)]

lemma fitResized_of_one_le {img : Img} {tw th : Nat}
    (hs : 1 ≤ fitScale img.width img.height tw th) : fitResized img tw th = img := by
  rw [fitResized, fitNewDims_of_one_le hs]
  exact resize_self img

lemma process_image_fit (img : Img) (tw th : Nat) :
    process_image (some img) "fit" tw th =
      some ((fitBackground img tw th).paste (fitResized img tw th)
        (fitOffset tw th (fitNewDims img.width img.height tw th).1
          (fitNewDims img.width img.height tw th).2).1
        (fitOffset tw th (fitNewDims img.width img.height tw th).1
          (fitNewDims img.width img.height tw th).2).2) := rfl

lemma process_image_stretch (img : Img) (tw th : Nat) :
    process_image (some img) "stretch" tw th = some (img.resize tw th) := rfl

lemma process_image_cut (img : Img) (tw th : Nat) :
    process_image (some img) "cut" tw th = some (ImageOps_fit img tw th) := rfl

lemma fitBackground_width (img : Img) (tw th : Nat) :
    (fitBackground img tw th).width = tw := by
  rw [fitBackground]
  split
  next => rfl
  next => rfl

lemma fitBackground_height (img : Img) (tw th : Nat) :
    (fitBackground img tw th).height = th := by
  rw [fitBackground]
  split
  next => rfl
  next => rfl

lemma fdiv_two_natCast (m : Nat) :
    Int.fdiv ((m : Int)) 2 = ((m / 2 : Nat) : Int) := by
  cases m with
  | zero => rfl
  | succ k => rfl

/-- Centering by floor division splits a nonnegative difference into a
left part and a right part that differ by at most one, the larger part on
the right. -/
lemma centering_split {t n : Nat} (h : n ≤ t) :
    0 ≤ Int.fdiv ((t : Int) - (n : Int)) 2 ∧
    Int.fdiv ((t : Int) - (n : Int)) 2
      ≤ (t : Int) - (n : Int) - Int.fdiv ((t : Int) - (n : Int)) 2 ∧
    (t : Int) - (n : Int) - Int.fdiv ((t : Int) - (n : Int)) 2
      ≤ Int.fdiv ((t : Int) - (n : Int)) 2 + 1 := by
  have hc : (t : Int) - (n : Int) = ((t - n : Nat) : Int) := by omega
  rw [hc, fdiv_two_natCast]
  omega

lemma previewScale_nonneg (cw ch iw ih : Nat) : 0 ≤ previewScale cw ch iw ih :=
  le_min (le_min (by positivity) (by positivity)) zero_le_one

lemma previewScale_le_w (cw ch iw ih : Nat) :
    previewScale cw ch iw ih ≤ (cw : ℚ) / (iw : ℚ) :=
  le_trans (min_le_left _ _) (min_le_left _ _)

lemma previewScale_le_h (cw ch iw ih : Nat) :
    previewScale cw ch iw ih ≤ (ch : ℚ) / (ih : ℚ) :=
  le_trans (min_le_left _ _) (min_le_right _ _)

lemma preview_w_le_canvas (cw ch iw ih : Nat) (hiw : 1 ≤ iw) :
    (pyInt ((iw : ℚ) * previewScale cw ch iw ih)).toNat ≤ cw :=
  pyInt_toNat_le (mul_nonneg (Nat.cast_nonneg iw) (previewScale_nonneg cw ch iw ih))
    (mul_le_of_le_div hiw (previewScale_le_w cw ch iw ih))

lemma preview_h_le_canvas (cw ch iw ih : Nat) (hih : 1 ≤ ih) :
    (pyInt ((ih : ℚ) * previewScale cw ch iw ih)).toNat ≤ ch :=
  pyInt_toNat_le (mul_nonneg (Nat.cast_nonneg ih) (previewScale_nonneg cw ch iw ih))
    (mul_le_of_le_div hih (previewScale_le_h cw ch iw ih))

lemma rotate_180_width (img : Img) : (img.rotate 180).width = img.width := by
  have hno : ¬((180 : Nat) = 90 ∨ (180 : Nat) = 270) := by decide
  rw [Img.rotate, if_neg hno]

lemma rotate_180_height (img : Img) : (img.rotate 180).height = img.height := by
  have hno : ¬((180 : Nat) = 90 ∨ (180 : Nat) = 270) := by decide
  rw [Img.rotate, if_neg hno]

lemma rotate_270_width (img : Img) : (img.rotate 270).width = img.height := by
  have hyes : (270 : Nat) = 90 ∨ (270 : Nat) = 270 := by decide
  rw [Img.rotate, if_pos hyes]

lemma rotate_270_height (img : Img) : (img.rotate 270).height = img.width := by
  have hyes : (270 : Nat) = 90 ∨ (270 : Nat) = 270 := by decide
  rw [Img.rotate, if_pos hyes]

lemma rotate_90_width (img : Img) : (img.rotate 90).width = img.height := by
  have hyes : (90 : Nat) = 90 ∨ (90 : Nat) = 270 := by decide
  rw [Img.rotate, if_pos hyes]

lemma rotate_90_height (img : Img) : (img.rotate 90).height = img.width := by
  have hyes : (90 : Nat) = 90 ∨ (90 : Nat) = 270 := by decide
  rw [Img.rotate, if_pos hyes]

/-! ## Concrete evaluation lemmas (shared by counterexamples and witnesses) -/

/-- A concrete opaque 3x5 source image. -/
def testImg35 : Img :=
  { width := 3, height := 5, mode := "RGB", data := PixData.raw 0,
    exifRes := ExifResult.noExif }

/-- A concrete opaque 2x2 source image. -/
def testImg22 : Img :=
  { width := 2, height := 2, mode := "RGB", data := PixData.raw 0,
    exifRes := ExifResult.noExif }

/-- A concrete 4x7 image with a chosen EXIF outcome. -/
def imgTag (t : ExifResult) : Img :=
  { width := 4, height := 7, mode := "RGB", data := PixData.raw 1, exifRes := t }

lemma fitScale_3553 : fitScale 3 5 5 3 = 3 / 5 := by
  rw [fitScale, min_def,
    if_neg (by norm_num : ¬(((5 : Nat) : ℚ) / ((3 : Nat) : ℚ) ≤ ((3 : Nat) : ℚ) / ((5 : Nat) : ℚ)))]
  norm_num

lemma fitScale_3553_lt_one : fitScale 3 5 5 3 < 1 := by
  rw [fitScale_3553]
  norm_num

lemma fitNewDims_3553 : fitNewDims 3 5 5 3 = (1, 3) := by
  rw [fitNewDims_of_lt_one fitScale_3553_lt_one, fitScale_3553]
  have h1 : pyInt (((3 : Nat) : ℚ) * (3 / 5 : ℚ)) = ((1 : ℕ) : ℤ) :=
    pyInt_eval (by norm_num) (by norm_num)
  have h2 : pyInt (((5 : Nat) : ℚ) * (3 / 5 : ℚ)) = ((3 : ℕ) : ℤ) :=
    pyInt_eval (by norm_num) (by norm_num)
  rw [h1, h2]
  rfl

lemma fitScale_2244 : fitScale 2 2 4 4 = ((4 : Nat) : ℚ) / ((2 : Nat) : ℚ) := by
  rw [fitScale, min_self]

lemma one_le_fitScale_2244 : 1 ≤ fitScale 2 2 4 4 := by
  rw [fitScale_2244]
  norm_num

/-! ## C1 -/

/-- C1 counterexample: source 3x5, target 5x3 gives scale 3/5 < 1; the
code computes the inner width with Python `int` (1 = int(1.8)), while the
claim's `round(source.width * scale)` is 2 — so the claim fails here. -/
theorem C1_counterexample :
    fitScale 3 5 5 3 < 1 ∧
    fitNewDims 3 5 5 3 = (1, 3) ∧
    roundNearest (((3 : Nat) : ℚ) * fitScale 3 5 5 3) = 2 ∧
    (fitNewDims 3 5 5 3).1
      ≠ (roundNearest (((3 : Nat) : ℚ) * fitScale 3 5 5 3)).toNat := by
  have hr : roundNearest (((3 : Nat) : ℚ) * fitScale 3 5 5 3) = 2 := by
    rw [roundNearest, fitScale_3553, Int.floor_eq_iff]
    constructor
    · norm_num
    · norm_num
  refine ⟨fitScale_3553_lt_one, fitNewDims_3553, hr, ?_⟩
  rw [fitNewDims_3553, hr]
  decide

/-- C1 (amended): in Fit mode with scale < 1 the inner resampled image has
dimensions `int(source.width * scale)` and `int(source.height * scale)` —
truncation (floor, both factors being nonnegative), not rounding to
nearest. -/
theorem C1_fit_inner_dims_truncate (img : Img) (tw th : Nat)
    (hw : 1 ≤ img.width) (hh : 1 ≤ img.height) (htw : 1 ≤ tw) (hth : 1 ≤ th)
    (hs : fitScale img.width img.height tw th < 1) :
    (fitResized img tw th).width
      = (⌊(img.width : ℚ) * fitScale img.width img.height tw th⌋).toNat ∧
    (fitResized img tw th).height
      = (⌊(img.height : ℚ) * fitScale img.width img.height tw th⌋).toNat := by
  have h0 := fitScale_nonneg img.width img.height tw th
  simp only [fitResized]
  rw [fitNewDims_of_lt_one hs]
  constructor
  · rw [resize_width]
    rw [pyInt_eq_floor (mul_nonneg (Nat.cast_nonneg img.width) h0)]
  · rw [resize_height]
    rw [pyInt_eq_floor (mul_nonneg (Nat.cast_nonneg img.height) h0)]

/-- C1 witness: the amended theorem applied to the 3x5 source and 5x3
target. -/
theorem C1_fit_inner_dims_truncate_witness :
    (fitResized testImg35 5 3).width
      = (⌊(testImg35.width : ℚ) * fitScale testImg35.width testImg35.height 5 3⌋).toNat ∧
    (fitResized testImg35 5 3).height
      = (⌊(testImg35.height : ℚ) * fitScale testImg35.width testImg35.height 5 3⌋).toNat :=
  C1_fit_inner_dims_truncate testImg35 5 3 (by decide) (by decide) (by decide) (by decide)
    (by show fitScale 3 5 5 3 < 1; exact fitScale_3553_lt_one)

/-! ## C2 -/

/-- C2: Fit mode never enlarges — the inner dimensions never exceed the
source dimensions — and whenever the source already fits (scale >= 1) the
inner image pasted onto the target-sized canvas is the source image
itself, not a resampled copy. -/
theorem C2_fit_never_enlarges (img : Img) (tw th : Nat)
    (hw : 1 ≤ img.width) (hh : 1 ≤ img.height) :
    ((fitNewDims img.width img.height tw th).1 ≤ img.width ∧
     (fitNewDims img.width img.height tw th).2 ≤ img.height) ∧
    (1 ≤ fitScale img.width img.height tw th →
      fitResized img tw th = img ∧
      ∃ x y : Int, process_image (some img) "fit" tw th
        = some ((fitBackground img tw th).paste img x y)) := by
  refine ⟨fitNewDims_le_orig img.width img.height tw th, fun hs => ⟨fitResized_of_one_le hs, ?_⟩⟩
  refine ⟨(fitOffset tw th (fitNewDims img.width img.height tw th).1
      (fitNewDims img.width img.height tw th).2).1,
    (fitOffset tw th (fitNewDims img.width img.height tw th).1
      (fitNewDims img.width img.height tw th).2).2, ?_⟩
  rw [process_image_fit, fitResized_of_one_le hs]

/-- C2 witness: a 2x2 source already fits a 4x4 target (scale 2): it is
pasted unchanged onto the 4x4 canvas. -/
theorem C2_fit_never_enlarges_witness :
    ((fitNewDims testImg22.width testImg22.height 4 4).1 ≤ testImg22.width ∧
     (fitNewDims testImg22.width testImg22.height 4 4).2 ≤ testImg22.height) ∧
    (fitResized testImg22 4 4 = testImg22 ∧
     ∃ x y : Int, process_image (some testImg22) "fit" 4 4
       = some ((fitBackground testImg22 4 4).paste testImg22 x y)) :=
  ⟨(C2_fit_never_enlarges testImg22 4 4 (by decide) (by decide)).1,
   (C2_fit_never_enlarges testImg22 4 4 (by decide) (by decide)).2
     (by show 1 ≤ fitScale 2 2 4 4; exact one_le_fitScale_2244)⟩

/-! ## C3 -/

/-- C3: for every loaded source, target of positive dimensions, and mode
among stretch, cut, fit, `process_image` returns an image whose
dimensions are exactly the target dimensions. -/
theorem C3_output_dims_exact (img : Img) (mode : String) (tw th : Nat)
    (hw : 1 ≤ img.width) (hh : 1 ≤ img.height) (htw : 1 ≤ tw) (hth : 1 ≤ th)
    (hm : mode = "stretch" ∨ mode = "cut" ∨ mode = "fit") :
    ∃ out : Img, process_image (some img) mode tw th = some out ∧
      out.width = tw ∧ out.height = th := by
  rcases hm with h | h | h
  · subst h
    exact ⟨img.resize tw th, process_image_stretch img tw th,
      resize_width img tw th, resize_height img tw th⟩
  · subst h
    exact ⟨ImageOps_fit img tw th, process_image_cut img tw th, rfl, rfl⟩
  · subst h
    refine ⟨_, process_image_fit img tw th, ?_, ?_⟩
    · exact fitBackground_width img tw th
    · exact fitBackground_height img tw th

/-- C3 witness: Fit mode at source 3x5 and target 7x9. -/
theorem C3_output_dims_exact_witness :
    ∃ out : Img, process_image (some testImg35) "fit" 7 9 = some out ∧
      out.width = 7 ∧ out.height = 9 :=
  C3_output_dims_exact testImg35 "fit" 7 9 (by decide) (by decide) (by decide) (by decide)
    (Or.inr (Or.inr rfl))

/-! ## C4 -/

/-- C4: orientation normalization maps tag 3 to a 180-degree rotation with
dimensions unchanged, tag 6 to a 270-degree rotation with width and height
swapped, tag 8 to a 90-degree rotation with width and height swapped, and
every other tag (including absent metadata) to the unchanged image. -/
theorem C4_orientation_cases (img : Img) :
    (img.exifRes = ExifResult.exif (some 3) →
      apply_exif_orientation img = img.rotate 180 ∧
      (apply_exif_orientation img).width = img.width ∧
      (apply_exif_orientation img).height = img.height) ∧
    (img.exifRes = ExifResult.exif (some 6) →
      apply_exif_orientation img = img.rotate 270 ∧
      (apply_exif_orientation img).width = img.height ∧
      (apply_exif_orientation img).height = img.width) ∧
    (img.exifRes = ExifResult.exif (some 8) →
      apply_exif_orientation img = img.rotate 90 ∧
      (apply_exif_orientation img).width = img.height ∧
      (apply_exif_orientation img).height = img.width) ∧
    (∀ t : Int, t ≠ 3 → t ≠ 6 → t ≠ 8 →
      img.exifRes = ExifResult.exif (some t) → apply_exif_orientation img = img) ∧
    (img.exifRes = ExifResult.exif none → apply_exif_orientation img = img) := by
  refine ⟨fun h => ?_, fun h => ?_, fun h => ?_, fun t h3 h6 h8 h => ?_, fun h => ?_⟩
  · have he : apply_exif_orientation img = img.rotate 180 := by
      simp [apply_exif_orientation, h]
    exact ⟨he, by rw [he, rotate_180_width], by rw [he, rotate_180_height]⟩
  · have he : apply_exif_orientation img = img.rotate 270 := by
      simp [apply_exif_orientation, h]
    exact ⟨he, by rw [he, rotate_270_width], by rw [he, rotate_270_height]⟩
  · have he : apply_exif_orientation img = img.rotate 90 := by
      simp [apply_exif_orientation, h]
    exact ⟨he, by rw [he, rotate_90_width], by rw [he, rotate_90_height]⟩
  · simp [apply_exif_orientation, h, h3, h6, h8]
  · simp [apply_exif_orientation, h]

/-- C4 witness: a 4x7 image reporting tag 6 is rotated 270 degrees with
width and height swapped; tag 2 leaves the image unchanged. -/
theorem C4_orientation_cases_witness :
    apply_exif_orientation (imgTag (ExifResult.exif (some 6)))
      = (imgTag (ExifResult.exif (some 6))).rotate 270 ∧
    (apply_exif_orientation (imgTag (ExifResult.exif (some 6)))).width
      = (imgTag (ExifResult.exif (some 6))).height ∧
    (apply_exif_orientation (imgTag (ExifResult.exif (some 6)))).height
      = (imgTag (ExifResult.exif (some 6))).width ∧
    apply_exif_orientation (imgTag (ExifResult.exif (some 2)))
      = imgTag (ExifResult.exif (some 2)) :=
  ⟨((C4_orientation_cases (imgTag (ExifResult.exif (some 6)))).2.1 rfl).1,
   ((C4_orientation_cases (imgTag (ExifResult.exif (some 6)))).2.1 rfl).2.1,
   ((C4_orientation_cases (imgTag (ExifResult.exif (some 6)))).2.1 rfl).2.2,
   (C4_orientation_cases (imgTag (ExifResult.exif (some 2)))).2.2.2.1 2
     (by decide) (by decide) (by decide) rfl⟩

/-! ## C5 -/

/-- C5: the Fit-mode centering offset and the preview placement are both
floor divisions of the remaining space by two; the left and right (top and
bottom) paddings are nonnegative, differ by at most one pixel, and any
extra pixel lands on the right (bottom) side. -/
theorem C5_centering_offsets :
    (∀ ow oh tw th nw nh : Nat, ∀ x y : Int, 1 ≤ ow → 1 ≤ oh →
      (nw, nh) = fitNewDims ow oh tw th →
      (x, y) = fitOffset tw th nw nh →
      (0 ≤ x ∧ x ≤ (tw : Int) - (nw : Int) - x ∧
        (tw : Int) - (nw : Int) - x ≤ x + 1) ∧
      (0 ≤ y ∧ y ≤ (th : Int) - (nh : Int) - y ∧
        (th : Int) - (nh : Int) - y ≤ y + 1)) ∧
    (∀ cw ch iw ih pw ph : Nat, ∀ x y : Int, 1 ≤ iw → 1 ≤ ih →
      pw = (pyInt ((iw : ℚ) * previewScale cw ch iw ih)).toNat →
      ph = (pyInt ((ih : ℚ) * previewScale cw ch iw ih)).toNat →
      x = Int.fdiv ((cw : Int) - (pw : Int)) 2 →
      y = Int.fdiv ((ch : Int) - (ph : Int)) 2 →
      (0 ≤ x ∧ x ≤ (cw : Int) - (pw : Int) - x ∧
        (cw : Int) - (pw : Int) - x ≤ x + 1) ∧
      (0 ≤ y ∧ y ≤ (ch : Int) - (ph : Int) - y ∧
        (ch : Int) - (ph : Int) - y ≤ y + 1)) := by
  constructor
  · intro ow oh tw th nw nh x y how hoh hnd hoff
    have h1 : nw = (fitNewDims ow oh tw th).1 := by rw [← hnd]
    have h2 : nh = (fitNewDims ow oh tw th).2 := by rw [← hnd]
    have hx : x = Int.fdiv ((tw : Int) - (nw : Int)) 2 := congrArg Prod.fst hoff
    have hy : y = Int.fdiv ((th : Int) - (nh : Int)) 2 := congrArg Prod.snd hoff
    have hle := fitNewDims_le_target ow oh tw th how hoh
    have hnw : nw ≤ tw := by rw [h1]; exact hle.1
    have hnh : nh ≤ th := by rw [h2]; exact hle.2
    obtain ⟨ha, hb, hc⟩ := centering_split hnw
    obtain ⟨hd, he, hf⟩ := centering_split hnh
    subst hx hy
    exact ⟨⟨ha, hb, hc⟩, hd, he, hf⟩
  · intro cw ch iw ih pw ph x y hiw hih hpw hph hx hy
    have hnw : pw ≤ cw := by rw [hpw]; exact preview_w_le_canvas cw ch iw ih hiw
    have hnh : ph ≤ ch := by rw [hph]; exact preview_h_le_canvas cw ch iw ih hih
    obtain ⟨ha, hb, hc⟩ := centering_split hnw
    obtain ⟨hd, he, hf⟩ := centering_split hnh
    subst hx hy
    exact ⟨⟨ha, hb, hc⟩, hd, he, hf⟩

/-! ## C6 -/

/-- C6: orientation normalization never fails the caller — a raised
extraction error, absent metadata, an absent tag, or tag 1 all return the
original image unmodified. -/
theorem C6_orientation_never_fails (img : Img) :
    (img.exifRes = ExifResult.raiseErr → apply_exif_orientation img = img) ∧
    (img.exifRes = ExifResult.noExif → apply_exif_orientation img = img) ∧
    (img.exifRes = ExifResult.exif none → apply_exif_orientation img = img) ∧
    (img.exifRes = ExifResult.exif (some 1) → apply_exif_orientation img = img) := by
  refine ⟨fun h => ?_, fun h => ?_, fun h => ?_, fun h => ?_⟩
  · simp [apply_exif_orientation, h]
  · simp [apply_exif_orientation, h]
  · simp [apply_exif_orientation, h]
  · simp [apply_exif_orientation, h]

/-- C6 witness: normalization at a raised extraction error and at tag 1
returns the image unchanged. -/
theorem C6_orientation_never_fails_witness :
    apply_exif_orientation (imgTag ExifResult.raiseErr) = imgTag ExifResult.raiseErr ∧
    apply_exif_orientation (imgTag (ExifResult.exif none)) = imgTag (ExifResult.exif none) ∧
    apply_exif_orientation (imgTag (ExifResult.exif (some 1))) = imgTag (ExifResult.exif (some 1)) :=
  ⟨(C6_orientation_never_fails (imgTag ExifResult.raiseErr)).1 rfl,
   (C6_orientation_never_fails (imgTag (ExifResult.exif none))).2.2.1 rfl,
   (C6_orientation_never_fails (imgTag (ExifResult.exif (some 1)))).2.2.2 rfl⟩

/-! ## C7 -/

lemma aspect_ratio_31 : aspect_ratio_of 3 1 = 3 := by
  rw [aspect_ratio_of, if_pos (by decide : (1 : Nat) ≠ 0)]
  norm_num

/-- C7 counterexample: with the load-time ratio of a 3x1 source (ratio 3)
and the width entry set to 5, the code stores height `int(5 / 3) = 1`,
while the claim's `round(5 / 3)` is 2 — so the claim's rounding-to-nearest
fails on the code. -/
theorem C7_counterexample :
    (on_dim_change "width" (some 5) (some 1) true (aspect_ratio_of 3 1)).2 = some 1 ∧
    roundNearest (((5 : Int) : ℚ) / aspect_ratio_of 3 1) = 2 ∧
    (on_dim_change "width" (some 5) (some 1) true (aspect_ratio_of 3 1)).2
      ≠ some (roundNearest (((5 : Int) : ℚ) / aspect_ratio_of 3 1)) := by
  have h1 : (on_dim_change "width" (some 5) (some 1) true (aspect_ratio_of 3 1)).2 = some 1 := by
    have hne : aspect_ratio_of 3 1 ≠ 0 := by rw [aspect_ratio_31]; norm_num
    simp only [on_dim_change, eq_self_iff_true, if_true, if_neg hne]
    have hv : pyInt (((5 : Int) : ℚ) / aspect_ratio_of 3 1) = ((1 : ℕ) : ℤ) := by
      rw [aspect_ratio_31]
      exact pyInt_eval (by norm_num) (by norm_num)
    rw [hv]
    rfl
  have h2 : roundNearest (((5 : Int) : ℚ) / aspect_ratio_of 3 1) = 2 := by
    rw [aspect_ratio_31, roundNearest, Int.floor_eq_iff]
    constructor
    · norm_num
    · norm_num
  refine ⟨h1, h2, ?_⟩
  rw [h1, h2]
  decide

/-- C7 (amended): with the aspect lock on and the ratio computed at load
time from a source of positive dimensions, changing one entry recomputes
the other with Python `int` — `int(w / ratio)` respectively
`int(h * ratio)`, truncation, not rounding to nearest. -/
theorem C7_lock_truncates (ow oh : Nat) (w h : Int) (how : 1 ≤ ow) (hoh : 1 ≤ oh) :
    on_dim_change "width" (some w) (some h) true (aspect_ratio_of ow oh)
      = (some w, some (pyInt ((w : ℚ) * (oh : ℚ) / (ow : ℚ)))) ∧
    on_dim_change "height" (some w) (some h) true (aspect_ratio_of ow oh)
      = (some (pyInt ((h : ℚ) * (ow : ℚ) / (oh : ℚ))), some h) := by
  have hown : ((ow : ℕ) : ℚ) ≠ 0 := Nat.cast_ne_zero.mpr (by omega)
  have hohn : ((oh : ℕ) : ℚ) ≠ 0 := Nat.cast_ne_zero.mpr (by omega)
  have har : aspect_ratio_of ow oh = (ow : ℚ) / (oh : ℚ) := by
    rw [aspect_ratio_of, if_pos (by omega : oh ≠ 0)]
  have harn : aspect_ratio_of ow oh ≠ 0 := by
    rw [har]
    exact div_ne_zero hown hohn
  constructor
  · simp only [on_dim_change, eq_self_iff_true, if_true, if_neg harn]
    rw [har, div_div_eq_mul_div]
  · simp only [on_dim_change, eq_self_iff_true, if_true,
      if_neg (by decide : ¬("height" = "width"))]
    rw [har, ← mul_div_assoc]

/-- C7 witness: the amended theorem at a 3x2 source with entries 5 and 7. -/
theorem C7_lock_truncates_witness :
    on_dim_change "width" (some 5) (some 7) true (aspect_ratio_of 3 2)
      = (some 5, some (pyInt (((5 : Int) : ℚ) * ((2 : Nat) : ℚ) / ((3 : Nat) : ℚ)))) ∧
    on_dim_change "height" (some 5) (some 7) true (aspect_ratio_of 3 2)
      = (some (pyInt (((7 : Int) : ℚ) * ((3 : Nat) : ℚ) / ((2 : Nat) : ℚ))), some 7) :=
  C7_lock_truncates 3 2 5 7 (by decide) (by decide)

/-! ## C8 -/

/-- C8: after inserting a path, the persisted list holds at most 5 paths,
starts with the just-inserted path, stays duplicate-free, and an
already-present path is moved to the front rather than duplicated (its
count in the result is exactly one). -/
theorem C8_recent_invariant (fp : String) (l : List String) :
    (add_recent_file fp l).length ≤ 5 ∧
    (add_recent_file fp l).head? = some fp ∧
    (l.Nodup → (add_recent_file fp l).Nodup) ∧
    (l.Nodup → (add_recent_file fp l).count fp = 1) := by
  obtain ⟨rest, hrest⟩ : ∃ rest, add_recent_file fp l = fp :: rest := ⟨_, rfl⟩
  have hmem : fp ∈ add_recent_file fp l := by
    rw [hrest]
    exact List.mem_cons_self fp rest
  have hnodup : l.Nodup → (add_recent_file fp l).Nodup := by
    intro hnd
    have h1 : (if fp ∈ l then l.erase fp else l).Nodup := by
      split
      · exact List.Nodup.sublist (List.erase_sublist fp l) hnd
      · exact hnd
    have h2 : fp ∉ (if fp ∈ l then l.erase fp else l) := by
      split
      · exact hnd.not_mem_erase
      · next hnin => exact hnin
    have h3 : (fp :: (if fp ∈ l then l.erase fp else l)).Nodup :=
      List.nodup_cons.mpr ⟨h2, h1⟩
    exact List.Nodup.sublist (List.take_sublist 5 _) h3
  refine ⟨?_, ?_, hnodup, ?_⟩
  · simp only [add_recent_file]
    rw [List.length_take]
    omega
  · rw [hrest]
    rfl
  · intro hnd
    exact List.count_eq_one_of_mem (hnodup hnd) hmem

/-- C8 witness: inserting an already-present path into a three-element
list moves it to the front without duplicating it. -/
theorem C8_recent_invariant_witness :
    (add_recent_file "a" ["b", "a", "c"]).length ≤ 5 ∧
    (add_recent_file "a" ["b", "a", "c"]).head? = some "a" ∧
    (add_recent_file "a" ["b", "a", "c"]).Nodup ∧
    (add_recent_file "a" ["b", "a", "c"]).count "a" = 1 :=
  ⟨(C8_recent_invariant "a" ["b", "a", "c"]).1,
   (C8_recent_invariant "a" ["b", "a", "c"]).2.1,
   (C8_recent_invariant "a" ["b", "a", "c"]).2.2.1 (by decide),
   (C8_recent_invariant "a" ["b", "a", "c"]).2.2.2 (by decide)⟩

/-! ## C9 -/

/-- C9: `process_image` returns `None` without a loaded image and for any
mode outside stretch/cut/fit, and `update_preview` propagates the absent
result instead of using it. -/
theorem C9_none_results :
    (∀ (mode : String) (tw th : Nat), process_image none mode tw th = none) ∧
    (∀ (img : Img) (mode : String) (tw th : Nat),
      mode ≠ "stretch" → mode ≠ "cut" → mode ≠ "fit" →
      process_image (some img) mode tw th = none) ∧
    (∀ (mode : String) (ew eh : Option Int) (cw ch : Nat),
      update_preview none mode ew eh cw ch = none) ∧
    (∀ (orig : Option Img) (mode : String) (ew eh : Option Int) (cw ch : Nat),
      (∀ w h : Int, get_dimensions ew eh = some (w, h) →
        process_image orig mode w.toNat h.toNat = none) →
      update_preview orig mode ew eh cw ch = none) := by
  refine ⟨fun _ _ _ => rfl, ?_, fun _ _ _ _ _ => rfl, ?_⟩
  · intro img mode tw th h1 h2 h3
    simp only [process_image, if_neg h1, if_neg h2, if_neg h3]
  · intro orig mode ew eh cw ch hp
    cases orig with
    | none => rfl
    | some a =>
      simp only [update_preview]
      cases hgd : get_dimensions ew eh with
      | none => rfl
      | some wh =>
        have hp2 := hp wh.1 wh.2 (by rw [hgd])
        simp only [hp2]

/-- C9 witness: no loaded image, and a bogus mode with a loaded image,
both yield `None`, and the preview updater propagates it. -/
theorem C9_none_results_witness :
    process_image none "fit" 8 8 = none ∧
    process_image (some testImg35) "bogus" 8 8 = none ∧
    update_preview (some testImg35) "bogus" (some 8) (some 8) 100 100 = none :=
  ⟨C9_none_results.1 "fit" 8 8,
   C9_none_results.2.1 testImg35 "bogus" 8 8 (by decide) (by decide) (by decide),
   C9_none_results.2.2.2 (some testImg35) "bogus" (some 8) (some 8) 100 100
     (fun w h _ => C9_none_results.2.1 testImg35 "bogus" w.toNat h.toNat
       (by decide) (by decide) (by decide))⟩

/-! ## C10 -/

/-- C10: the load-time aspect-ratio computation falls back to 1.0 when the
decoded height is 0 (no ZeroDivisionError), and for every loaded image
(height at least 1) the fallback is not taken: the ratio is width/height. -/
theorem C10_aspect_ratio_guard :
    (∀ w : Nat, aspect_ratio_of w 0 = 1) ∧
    (∀ w h : Nat, 1 ≤ h → aspect_ratio_of w h = (w : ℚ) / (h : ℚ)) := by
  constructor
  · intro w
    rw [aspect_ratio_of, if_neg]
    simp
  · intro w h hh
    rw [aspect_ratio_of, if_pos (by omega : h ≠ 0)]

/-- C10 witness: height 0 falls back to 1; height 2 gives the true ratio. -/
theorem C10_aspect_ratio_guard_witness :
    aspect_ratio_of 4 0 = 1 ∧
    aspect_ratio_of 4 2 = ((4 : Nat) : ℚ) / ((2 : Nat) : ℚ) :=
  ⟨C10_aspect_ratio_guard.1 4, C10_aspect_ratio_guard.2 4 2 (by decide)⟩

lemma previewScale_100_60_10_10 : previewScale 100 60 10 10 = 1 := by
  rw [previewScale,
    min_eq_right (by norm_num : ((60 : Nat) : ℚ) / ((10 : Nat) : ℚ)
      ≤ ((100 : Nat) : ℚ) / ((10 : Nat) : ℚ))]
  exact min_eq_right (by norm_num)

lemma preview_pw_eval :
    (pyInt (((10 : Nat) : ℚ) * previewScale 100 60 10 10)).toNat = 10 := by
  rw [previewScale_100_60_10_10, mul_one, pyInt_eq_floor (by positivity),
    Int.floor_natCast]
  rfl

/-- C5 witness: the Fit offsets of the 3x5-source / 5x3-target case and
the preview placement of a 10x10 image on a 100x60 canvas. -/
theorem C5_centering_offsets_witness :
    ((0 ≤ (2 : Int) ∧ (2 : Int) ≤ ((5 : Nat) : Int) - ((1 : Nat) : Int) - 2 ∧
      ((5 : Nat) : Int) - ((1 : Nat) : Int) - 2 ≤ 2 + 1) ∧
     (0 ≤ (0 : Int) ∧ (0 : Int) ≤ ((3 : Nat) : Int) - ((3 : Nat) : Int) - 0 ∧
      ((3 : Nat) : Int) - ((3 : Nat) : Int) - 0 ≤ 0 + 1)) ∧
    ((0 ≤ (45 : Int) ∧ (45 : Int) ≤ ((100 : Nat) : Int) - ((10 : Nat) : Int) - 45 ∧
      ((100 : Nat) : Int) - ((10 : Nat) : Int) - 45 ≤ 45 + 1) ∧
     (0 ≤ (25 : Int) ∧ (25 : Int) ≤ ((60 : Nat) : Int) - ((10 : Nat) : Int) - 25 ∧
      ((60 : Nat) : Int) - ((10 : Nat) : Int) - 25 ≤ 25 + 1)) :=
  ⟨C5_centering_offsets.1 3 5 5 3 1 3 2 0 (by decide) (by decide)
     fitNewDims_3553.symm (by decide),
   C5_centering_offsets.2 100 60 10 10 10 10 45 25 (by decide) (by decide)
     preview_pw_eval.symm preview_pw_eval.symm (by decide) (by decide)⟩
